import Mathlib

/-!
Verification of the Atomic Blog application state logic.

The definitions below are a shallow embedding of the state model and the
state-updating operations of the application (`App` in the main component
file and `PostProvider`/`usePosts` in `PostContext.js`).  Randomness from
the faker library is modelled by passing the drawn strings explicitly.
-/

namespace AtomicBlog

/-- A post record `{ title, body }`. -/
structure Post where
  title : String
  body : String
deriving DecidableEq, Repr

/-- `createRandomPost` builds a post whose title is the drawn adjective,
a space, and the drawn noun, and whose body is the drawn phrase
(`{ title: adjective + " " + noun, body: phrase }`). -/
def createRandomPost (adjective noun phrase : String) : Post :=
  { title := adjective ++ " " ++ noun, body := phrase }

/-- JavaScript `String.prototype.toLowerCase`, character-wise. -/
def jsToLowerCase (s : String) : String :=
  ⟨s.data.map Char.toLower⟩

/-- Contiguous-substring test on character lists, the semantics of
JavaScript `String.prototype.includes` (the empty needle is contained). -/
def listIncludes : List Char → List Char → Bool
  | _, [] => true
  | [], _ :: _ => false
  | a :: as, b :: bs =>
    ((b :: bs).isPrefixOf (a :: as)) || listIncludes as (b :: bs)

/-- JavaScript `s.includes(sub)`. -/
def jsIncludes (s sub : String) : Bool :=
  listIncludes s.data sub.data

/-- The filter predicate of `searchedPosts`:
`` `${post.title} ${post.body}`.toLowerCase().includes(searchQuery.toLowerCase()) ``. -/
def postMatches (searchQuery : String) (post : Post) : Bool :=
  jsIncludes (jsToLowerCase (post.title ++ " " ++ post.body))
    (jsToLowerCase searchQuery)

/-- The derived list, exactly as computed in the source:
`searchQuery.length > 0 ? posts.filter(...) : posts`. -/
def searchedPosts (posts : List Post) (searchQuery : String) : List Post :=
  if searchQuery.length > 0 then
    posts.filter (postMatches searchQuery)
  else
    posts

/-- The derived list as the specification describes it: the posts list
itself when the query is empty, otherwise the sublist of posts whose
lowercased `title ++ " " ++ body` contains the lowercased query. -/
def searchedPostsSpec (posts : List Post) (searchQuery : String) : List Post :=
  if searchQuery = "" then
    posts
  else
    posts.filter (postMatches searchQuery)

/-- The pieces of component state of `App`: the stored posts, the search
query, the fake-dark-mode flag, the add-post form's fields, and the
archive's visibility flag. -/
structure AppState where
  posts : List Post
  searchQuery : String
  isFakeDark : Bool
  formTitle : String
  formBody : String
  showArchive : Bool
deriving DecidableEq, Repr

/-- `handleAddPost(post)` runs `setPosts((posts) => [post, ...posts])`. -/
def handleAddPost (post : Post) (s : AppState) : AppState :=
  { s with posts := post :: s.posts }

/-- `handleClearPosts()` runs `setPosts([])`. -/
def handleClearPosts (s : AppState) : AppState :=
  { s with posts := [] }

/-- The search input's `onChange` runs `setSearchQuery(e.target.value)`. -/
def setSearchQuery (q : String) (s : AppState) : AppState :=
  { s with searchQuery := q }

/-- The dark-mode button's `onClick` runs
`setIsFakeDark((isFakeDark) => !isFakeDark)`. -/
def toggleFakeDark (s : AppState) : AppState :=
  { s with isFakeDark := !s.isFakeDark }

/-- The list of posts the view displays, derived from the state. -/
def displayedPosts (s : AppState) : List Post :=
  searchedPosts s.posts s.searchQuery

/-- The initial posts state:
`Array.from({ length: 30 }, () => createRandomPost())`, the `i`-th call of
the generator drawing the strings `rand i`. -/
def initialPosts (rand : Nat → String × String × String) : List Post :=
  (List.range 30).map fun i =>
    createRandomPost (rand i).1 (rand i).2.1 (rand i).2.2

/-- The add-post form's own state: its `title` and `body` fields. -/
structure FormState where
  title : String
  body : String
deriving DecidableEq, Repr

/-- The form's `handleSubmit`: if `!body || !title` it returns without
touching anything; otherwise it calls `onAddPost({ title, body })` and
resets both fields to the empty string.  (A JavaScript string is falsy
exactly when it is empty.)  `st` is the ambient state the `onAddPost`
callback updates. -/
def handleSubmit {α : Type} (onAddPost : Post → α → α)
    (form : FormState) (st : α) : FormState × α :=
  if form.body = "" || form.title = "" then (form, st)
  else ({ title := "", body := "" },
    onAddPost { title := form.title, body := form.body } st)

/-- The state held by `PostProvider` in `PostContext.js`: the stored
posts and the search query. -/
structure ProviderState where
  posts : List Post
  searchQuery : String
deriving DecidableEq, Repr

/-- The memoized context value `PostProvider` supplies: the derived
posts together with the two update callbacks, the query, and its
setter. -/
structure ContextValue where
  posts : List Post
  onAddPost : Post → List Post → List Post
  onClearPosts : List Post → List Post
  searchQuery : String
  setSearchQuery : String → ProviderState → ProviderState

/-- The value object `PostProvider` builds from its state:
`{ posts: searchedPosts, onAddPost: handleAddPost, onClearPosts:
handleClearPosts, searchQuery, setSearchQuery }`. -/
def providerValue (s : ProviderState) : ContextValue :=
  { posts := searchedPosts s.posts s.searchQuery
    onAddPost := fun post posts => post :: posts
    onClearPosts := fun _ => []
    searchQuery := s.searchQuery
    setSearchQuery := fun q s => { s with searchQuery := q } }

/-- `usePosts`: reading the context gives `undefined` (`none`) outside a
`PostProvider`, in which case the hook throws; otherwise it returns the
context value. -/
def usePosts (ctx : Option ContextValue) : Except String ContextValue :=
  match ctx with
  | none => .error "PostContext was used outside of the PostProvider"
  | some v => .ok v

/-- A JavaScript value, as far as this application's post records go:
a string or an object given by its ordered field list. -/
inductive JsValue where
  | vstr : String → JsValue
  | vobj : List (String × JsValue) → JsValue

/-- `createRandomPost` at the dynamic JavaScript level: the object
literal `{ title, body }` it returns. -/
def createRandomPostJs (adjective noun phrase : String) : JsValue :=
  .vobj [("title", .vstr (adjective ++ " " ++ noun)),
    ("body", .vstr phrase)]

/-- The object literal `{ title, body }` the form's `handleSubmit`
passes to `onAddPost`. -/
def formPostJs (title body : String) : JsValue :=
  .vobj [("title", .vstr title), ("body", .vstr body)]

/-- A flat record with exactly the two string fields `title` and
`body`. -/
def isFlatPostRecord : JsValue → Bool
  | .vobj [("title", .vstr _), ("body", .vstr _)] => true
  | _ => false

/-- `Array.from({ length: n }, () => createRandomPost())`, at the
dynamic level: used with `n = 30` for the initial posts and
`n = 30000` for the archive. -/
def generatedPostsJs (rand : Nat → String × String × String)
    (n : Nat) : List JsValue :=
  (List.range n).map fun i =>
    createRandomPostJs (rand i).1 (rand i).2.1 (rand i).2.2

/-- `handleAddPost` at the dynamic level:
`setPosts((posts) => [post, ...posts])`. -/
def handleAddPostJs (post : JsValue) (posts : List JsValue) :
    List JsValue :=
  post :: posts

/-- `handleClearPosts` at the dynamic level: `setPosts([])`. -/
def handleClearPostsJs (_posts : List JsValue) : List JsValue :=
  []

/-- A nonempty string has positive length. -/
theorem length_pos_iff_ne_empty (q : String) : q.length > 0 ↔ q ≠ "" := by
  cases q with
  | mk data =>
    cases data with
    | nil => simp [String.length]
    | cons c cs =>
      simp only [String.length]
      constructor
      · intro _ h
        exact List.cons_ne_nil c cs (congrArg String.data h)
      · intro _
        exact Nat.succ_pos _

/-- C1: `searchedPosts` equals the posts list itself when the query is
empty, and otherwise the sublist of posts whose lowercased
`title ++ " " ++ body` contains the lowercased query as a substring —
the code's `searchQuery.length > 0` test agrees with the spec's
empty/non-empty case split on every input. -/
theorem searchedPosts_eq_spec (posts : List Post) (searchQuery : String) :
    searchedPosts posts searchQuery = searchedPostsSpec posts searchQuery := by
  unfold searchedPosts searchedPostsSpec
  by_cases h : searchQuery = ""
  · simp [h]
  · simp [h, (length_pos_iff_ne_empty searchQuery).mpr h]

/-- C2: the displayed list is a pure function of the posts list and the
search query — two states agreeing on those two pieces yield the same
filtered list, whatever their dark-mode flag, form fields, or archive
visibility. -/
theorem displayedPosts_pure (s₁ s₂ : AppState)
    (hposts : s₁.posts = s₂.posts)
    (hquery : s₁.searchQuery = s₂.searchQuery) :
    displayedPosts s₁ = displayedPosts s₂ := by
  unfold displayedPosts
  rw [hposts, hquery]

theorem displayedPosts_pure_witness :
    (AppState.mk [⟨"a", "b"⟩] "a" false "t" "u" false).posts
      = (AppState.mk [⟨"a", "b"⟩] "a" true "x" "y" true).posts ∧
    (AppState.mk [⟨"a", "b"⟩] "a" false "t" "u" false).searchQuery
      = (AppState.mk [⟨"a", "b"⟩] "a" true "x" "y" true).searchQuery ∧
    displayedPosts (AppState.mk [⟨"a", "b"⟩] "a" false "t" "u" false)
      = displayedPosts (AppState.mk [⟨"a", "b"⟩] "a" true "x" "y" true) :=
  ⟨by decide, by decide,
    displayedPosts_pure _ _ (by decide) (by decide)⟩

/-- C3 counterexample: `handleAddPost` does not append the new post at
the end of the list — on the state holding the single post
`⟨"c", "d"⟩`, adding `⟨"a", "b"⟩` does not produce
`[⟨"c", "d"⟩, ⟨"a", "b"⟩]`. -/
theorem handleAddPost_not_append :
    ¬ ((handleAddPost ⟨"a", "b"⟩
        (AppState.mk [⟨"c", "d"⟩] "" false "" "" false)).posts
      = [Post.mk "c" "d", Post.mk "a" "b"]) := by
  decide

/-- C3 amended: `handleAddPost(p)` prepends `p` at the front: the new
posts list is `p` followed by the old list, so its length grows by one,
`p` sits at index 0, and every previously present post is unchanged,
shifted one index down, in its previous order. -/
theorem handleAddPost_prepends (p : Post) (s : AppState) :
    (handleAddPost p s).posts = p :: s.posts ∧
    (handleAddPost p s).posts.length = s.posts.length + 1 ∧
    (handleAddPost p s).posts.get? 0 = some p ∧
    ∀ i, (handleAddPost p s).posts.get? (i + 1) = s.posts.get? i := by
  refine ⟨rfl, rfl, rfl, fun i => rfl⟩

/-- C5: one click negates `isFakeDark`, and two successive clicks
restore the whole state — the toggle is an involution. -/
theorem toggleFakeDark_involutive (s : AppState) :
    (toggleFakeDark s).isFakeDark = !s.isFakeDark ∧
    toggleFakeDark (toggleFakeDark s) = s := by
  refine ⟨rfl, ?_⟩
  simp [toggleFakeDark]

/-- C6: each state-updating operation touches only its own piece of
state — `handleAddPost` and `handleClearPosts` leave `searchQuery` and
`isFakeDark` unchanged, and `setSearchQuery` leaves the stored posts
list and `isFakeDark` unchanged.  In this model every operation is a
pure function on `AppState`, so nothing is persisted or sent outside
the in-memory state. -/
theorem state_ops_frame (s : AppState) (p : Post) (q : String) :
    (handleAddPost p s).searchQuery = s.searchQuery ∧
    (handleAddPost p s).isFakeDark = s.isFakeDark ∧
    (handleClearPosts s).searchQuery = s.searchQuery ∧
    (handleClearPosts s).isFakeDark = s.isFakeDark ∧
    (setSearchQuery q s).posts = s.posts ∧
    (setSearchQuery q s).isFakeDark = s.isFakeDark :=
  ⟨rfl, rfl, rfl, rfl, rfl, rfl⟩

/-- C10: the filtered list is always a sublist of the stored posts list —
every element of it occurs in `posts`, relative order is preserved, and
its length never exceeds that of `posts`. -/
theorem searchedPosts_sublist (posts : List Post) (searchQuery : String) :
    List.Sublist (searchedPosts posts searchQuery) posts ∧
    (∀ p, p ∈ searchedPosts posts searchQuery → p ∈ posts) ∧
    (searchedPosts posts searchQuery).length ≤ posts.length := by
  have hs : List.Sublist (searchedPosts posts searchQuery) posts := by
    unfold searchedPosts
    by_cases h : searchQuery.length > 0
    · simp [h]
    · simp [h]
  exact ⟨hs, fun p hp => hs.subset hp, hs.length_le⟩

theorem searchedPosts_sublist_witness :
    List.Sublist (searchedPosts [Post.mk "a" "b"] "a") [Post.mk "a" "b"] ∧
    Post.mk "a" "b" ∈ [Post.mk "a" "b"] :=
  ⟨(searchedPosts_sublist [Post.mk "a" "b"] "a").1,
    (searchedPosts_sublist [Post.mk "a" "b"] "a").2.1 (Post.mk "a" "b")
      (by decide)⟩

/-- C7: the initial posts state holds exactly 30 records, the `i`-th
being the post the random generator builds from the `i`-th draw. -/
theorem initialPosts_spec (rand : Nat → String × String × String) :
    (initialPosts rand).length = 30 ∧
    ∀ i, i < 30 → (initialPosts rand).get? i =
      some (createRandomPost (rand i).1 (rand i).2.1 (rand i).2.2) := by
  constructor
  · simp [initialPosts]
  · intro i hi
    simp only [initialPosts, List.get?_eq_getElem?, List.getElem?_map]
    rw [List.getElem?_range hi]
    rfl

theorem initialPosts_spec_witness :
    0 < 30 ∧
    (initialPosts fun _ => ("a", "n", "p")).get? 0 =
      some (createRandomPost "a" "n" "p") :=
  ⟨by decide, (initialPosts_spec fun _ => ("a", "n", "p")).2 0 (by decide)⟩

/-- C9: submitting the form with an empty title or an empty body adds no
post and leaves the form's fields unchanged; with both non-empty it
calls `onAddPost` with exactly `{ title, body }` and resets both fields
to the empty string. -/
theorem handleSubmit_spec {α : Type} (onAddPost : Post → α → α)
    (form : FormState) (st : α) :
    ((form.title = "" ∨ form.body = "") →
      handleSubmit onAddPost form st = (form, st)) ∧
    (form.title ≠ "" → form.body ≠ "" →
      handleSubmit onAddPost form st =
        (FormState.mk "" "",
          onAddPost (Post.mk form.title form.body) st)) := by
  constructor
  · intro h
    unfold handleSubmit
    rcases h with h | h <;> simp [h]
  · intro htitle hbody
    unfold handleSubmit
    simp [htitle, hbody]

theorem handleSubmit_spec_witness :
    ((FormState.mk "" "b").title = "" ∨ (FormState.mk "" "b").body = "") ∧
    handleSubmit (fun p ps => p :: ps) (FormState.mk "" "b")
      ([] : List Post) = (FormState.mk "" "b", []) ∧
    ((FormState.mk "t" "b").title ≠ "" ∧ (FormState.mk "t" "b").body ≠ "") ∧
    handleSubmit (fun p ps => p :: ps) (FormState.mk "t" "b")
      ([] : List Post) = (FormState.mk "" "", [Post.mk "t" "b"]) :=
  ⟨Or.inl rfl,
    (handleSubmit_spec (fun p ps => p :: ps) (FormState.mk "" "b") []).1
      (Or.inl rfl),
    ⟨by decide, by decide⟩,
    (handleSubmit_spec (fun p ps => p :: ps) (FormState.mk "t" "b") []).2
      (by decide) (by decide)⟩

/-- C8: `usePosts` throws the error
`"PostContext was used outside of the PostProvider"` exactly when the
context value is `undefined`, and otherwise returns the provided
context value, which carries the derived posts, the two callbacks, the
query, and its setter. -/
theorem usePosts_spec :
    (∀ ctx : Option ContextValue,
      (∃ e, usePosts ctx = .error e) ↔ ctx = none) ∧
    usePosts none =
      .error "PostContext was used outside of the PostProvider" ∧
    (∀ v, usePosts (some v) = .ok v) ∧
    ∀ s : ProviderState,
      (providerValue s).posts = searchedPosts s.posts s.searchQuery ∧
      (providerValue s).searchQuery = s.searchQuery ∧
      (∀ p posts, (providerValue s).onAddPost p posts = p :: posts) ∧
      (∀ posts, (providerValue s).onClearPosts posts = []) ∧
      ∀ q s0, ((providerValue s).setSearchQuery q s0).searchQuery = q ∧
        ((providerValue s).setSearchQuery q s0).posts = s0.posts := by
  refine ⟨fun ctx => ?_, rfl, fun v => rfl,
    fun s => ⟨rfl, rfl, fun p posts => rfl, fun posts => rfl,
      fun q s0 => ⟨rfl, rfl⟩⟩⟩
  cases ctx with
  | none => simp [usePosts]
  | some v => simp [usePosts]

/-- C4: every post record produced anywhere — the random generation
used for the initial 30 posts and the 30000 archive posts, a form
submission, adding an archive post, clearing — is a flat record with
exactly the two string fields `title` and `body`, and the operations
preserve that shape for the whole list. -/
theorem posts_shape_invariant (rand : Nat → String × String × String)
    (n : Nat) (adjective noun phrase t b : String)
    (posts : List JsValue)
    (h : posts.all isFlatPostRecord = true) :
    (generatedPostsJs rand n).all isFlatPostRecord = true ∧
    (handleAddPostJs (formPostJs t b) posts).all isFlatPostRecord
      = true ∧
    (handleAddPostJs (createRandomPostJs adjective noun phrase)
      posts).all isFlatPostRecord = true ∧
    (handleClearPostsJs posts).all isFlatPostRecord = true := by
  refine ⟨?_, ?_, ?_, rfl⟩
  · simp only [generatedPostsJs, List.all_eq_true]
    intro v hv
    obtain ⟨i, _, rfl⟩ := List.mem_map.mp hv
    rfl
  · simp only [handleAddPostJs, List.all_cons, h, Bool.and_true]
    rfl
  · simp only [handleAddPostJs, List.all_cons, h, Bool.and_true]
    rfl

theorem posts_shape_invariant_witness :
    ([formPostJs "x" "y"] : List JsValue).all isFlatPostRecord = true ∧
    (handleAddPostJs (formPostJs "t" "b")
      [formPostJs "x" "y"]).all isFlatPostRecord = true ∧
    (generatedPostsJs (fun _ => ("a", "n", "p")) 2).all
      isFlatPostRecord = true :=
  ⟨rfl,
    (posts_shape_invariant (fun _ => ("a", "n", "p")) 2 "a" "n" "p"
      "t" "b" [formPostJs "x" "y"] rfl).2.1,
    (posts_shape_invariant (fun _ => ("a", "n", "p")) 2 "a" "n" "p"
      "t" "b" [formPostJs "x" "y"] rfl).1⟩

end AtomicBlog
